import Mathlib

/-!
# Trigger reconciler of eventing-autoscaler-keda

A shallow embedding of `pkg/reconciler/trigger/trigger.go`.

The reconciler talks to a cluster through two read caches (the broker lister
and the scaled-object lister) and one write client (the KEDA clientset).  The
cluster is an explicit state `σ`; every call the reconciler makes is recorded,
in order and together with the error it returned, in a list of `Event`s, so
that statements such as "exactly one Create is issued" or "the lister is never
consulted" are statements about that list.
-/

set_option autoImplicit false

namespace TriggerReconciler

/-! ## Data model -/

/-- Go `map[string]string`: `none` is the nil map. -/
abbrev StringMap := Option (List (String × String))

/-- Go map indexing `m[k]` on a `map[string]string`: the zero value `""` when
the key is missing or the map is nil. -/
def StringMap.index (m : StringMap) (k : String) : String :=
  match m with
  | none => ""
  | some kvs => ((kvs.find? (fun kv => kv.1 == k)).map (fun kv => kv.2)).getD ""

/-- The value of `metav1.OwnerReference` that matters for identity. -/
structure OwnerReference where
  APIVersion : String
  Kind : String
  Name : String
  UID : String
  deriving DecidableEq, Repr

/-- The part of `metav1.ObjectMeta` carried by the objects handled here. -/
structure ObjectMeta where
  Name : String
  Namespace : String
  UID : String
  ResourceVersion : String
  Generation : Int
  Labels : StringMap
  Annotations : StringMap
  OwnerReferences : List OwnerReference
  Finalizers : List String
  deriving DecidableEq, Repr

/-- A Go `error` as seen by `apierrs.IsNotFound`: the status reason (the empty
string for an error that carries no API status) and the text of `Error()`. -/
structure GoError where
  reason : String
  message : String
  deriving DecidableEq, Repr

/-- The constant `metav1.StatusReasonNotFound`. -/
def StatusReasonNotFound : String := "NotFound"

/-- The test `apierrs.IsNotFound(err)` on a Go `error` value; `none` is the nil
error, for which the test is false. -/
def IsNotFound (err : Option GoError) : Bool :=
  match err with
  | none => false
  | some e => e.reason == StatusReasonNotFound

/-- The constant `eventing.BrokerClassKey` of knative.dev/eventing. -/
def BrokerClassKey : String := "eventing.knative.dev/broker.class"

/-- A `v1.Broker`: the reconciler reads only its annotations. -/
structure Broker where
  ObjectMeta : ObjectMeta
  deriving DecidableEq, Repr

/-- The `Spec` of a `v1.Trigger`: the referenced broker, and the filter and
subscriber configuration that only the scaled-object builder looks at. -/
structure TriggerSpec where
  Broker : String
  Filter : StringMap
  Subscriber : String
  deriving DecidableEq, Repr

/-- A `v1.Trigger`. -/
structure Trigger where
  ObjectMeta : ObjectMeta
  Spec : TriggerSpec
  deriving DecidableEq, Repr

/-- The value of one field of a scaled-object specification. -/
inductive FieldValue where
  | int (i : Int)
  | str (s : String)
  deriving DecidableEq, Repr

/-- Modelled from the spec: the specification payload of a scaling descriptor
(the KEDA type `ScaledObjectSpec` is declared outside this repository).  The
spec speaks of the fields "explicitly set" in a specification and of fields
"absent" from it; the payload is therefore the list of the fields that are
set, each with its value.  A field is read with `ScaledObjectSpec.field`, the
first entry for a name being the one that counts. -/
structure ScaledObjectSpec where
  fields : List (String × FieldValue)
  deriving DecidableEq, Repr

/-- The value of field `name`, `none` when the field is not set. -/
def ScaledObjectSpec.field (s : ScaledObjectSpec) (name : String) : Option FieldValue :=
  (s.fields.find? (fun kv => kv.1 == name)).map (fun kv => kv.2)

/-- The status block of a scaled object, written by KEDA and never by this
reconciler. -/
structure ScaledObjectStatus where
  fields : List (String × FieldValue)
  deriving DecidableEq, Repr

/-- A `kedav1alpha1.ScaledObject`. -/
structure ScaledObject where
  ObjectMeta : ObjectMeta
  Spec : ScaledObjectSpec
  Status : ScaledObjectStatus
  deriving DecidableEq, Repr

/-- The promoted field `so.Namespace`. -/
abbrev ScaledObject.Namespace (so : ScaledObject) : String := so.ObjectMeta.Namespace

/-- The promoted field `so.Name`. -/
abbrev ScaledObject.Name (so : ScaledObject) : String := so.ObjectMeta.Name

/-- The method `DeepCopy` of a scaled object: a fresh object equal to the
receiver.  Values are immutable here, so the copy is the value itself. -/
def ScaledObject.DeepCopy (so : ScaledObject) : ScaledObject := so

/-- Modelled from the spec: `equality.Semantic.DeepDerivative(desired, current)`
of k8s.io/apimachinery, which is outside this repository.  In the words of the
spec: every field explicitly set in `desired` must match the corresponding
field in `current`; fields absent from `desired` are ignored (not required to
be absent in `current`). -/
def DeepDerivative (desired current : ScaledObjectSpec) : Bool :=
  desired.fields.all (fun kv => current.field kv.1 == desired.field kv.1)

/-- The caller-supplied `context.Context`; the reconciler only passes it on. -/
structure Context where
  values : List (String × String)
  deriving DecidableEq, Repr

/-! ## Calls made by the reconciler -/

/-- Levels of the context logger used by the reconciler. -/
inductive LogLevel where
  | debug
  | info
  | error
  deriving DecidableEq, Repr

/-- One observable call made during a reconciliation pass, with the error it
returned (`none` for the nil error). -/
inductive Event where
  /-- A line written to the logger of the context; `fields` are the structured
  fields (`zap.Any`) attached to it. -/
  | log (level : LogLevel) (msg : String) (fields : List (String × Trigger))
  /-- The call `brokerLister.Brokers(ns).Get(name)`. -/
  | getBroker (ns name : String) (err : Option GoError)
  /-- The call `scaledObjectLister.ScaledObjects(ns).Get(name)`. -/
  | getScaledObject (ns name : String) (err : Option GoError)
  /-- The call `kedaClientset.KedaV1alpha1().ScaledObjects(ns).Create(ctx, obj, _)`. -/
  | create (ns : String) (obj : ScaledObject) (err : Option GoError)
  /-- The call `kedaClientset.KedaV1alpha1().ScaledObjects(ns).Update(ctx, obj, _)`. -/
  | update (ns : String) (obj : ScaledObject) (err : Option GoError)
  deriving DecidableEq, Repr

/-- Store writes: Create and Update. -/
def Event.isWrite : Event → Bool
  | .create _ _ _ => true
  | .update _ _ _ => true
  | _ => false

/-- Store reads: the two lister lookups. -/
def Event.isRead : Event → Bool
  | .getBroker _ _ _ => true
  | .getScaledObject _ _ _ => true
  | _ => false

/-- Lookups in the scaled-object lister. -/
def Event.isScaledObjectRead : Event → Bool
  | .getScaledObject _ _ _ => true
  | _ => false

/-- Lookups in the broker lister. -/
def Event.isBrokerRead : Event → Bool
  | .getBroker _ _ _ => true
  | _ => false

/-- The error a store call returned; `none` for log lines and for calls that
succeeded. -/
def Event.err : Event → Option GoError
  | .log _ _ _ => none
  | .getBroker _ _ e => e
  | .getScaledObject _ _ e => e
  | .create _ _ e => e
  | .update _ _ e => e

/-- The store writes of a trace, in order. -/
def writes (trace : List Event) : List Event := trace.filter Event.isWrite

/-- The error component of a Go `(value, error)` result. -/
def errOf {α : Type} (r : Except GoError α) : Option GoError :=
  match r with
  | .ok _ => none
  | .error e => some e

/-! ## The reconciler -/

/-- The interface `eventinglisters.BrokerLister` over the cluster state `σ`:
`Get s ns name` is `Brokers(ns).Get(name)`.  A lister returns either an object
or an error, never both. -/
structure BrokerLister (σ : Type) where
  Get : σ → String → String → Except GoError Broker

/-- The interface `kedalisters.ScaledObjectLister` over the cluster state `σ`:
`Get s ns name` is `ScaledObjects(ns).Get(name)`. -/
structure ScaledObjectLister (σ : Type) where
  Get : σ → String → String → Except GoError ScaledObject

/-- The part of `kedaclientset.Interface` the reconciler calls:
`Create s ns obj` is `KedaV1alpha1().ScaledObjects(ns).Create(ctx, obj, _)` and
gives the next cluster state with the call result; likewise `Update`. -/
structure KedaClientset (σ : Type) where
  Create : σ → String → ScaledObject → σ × Except GoError ScaledObject
  Update : σ → String → ScaledObject → σ × Except GoError ScaledObject

/-- The struct `Reconciler`. -/
structure Reconciler (σ : Type) where
  kedaClientset : KedaClientset σ
  brokerLister : BrokerLister σ
  scaledObjectLister : ScaledObjectLister σ
  brokerClass : String

/-- What a pass leaves behind: the cluster state, the calls made, and the
returned error (`none` is nil). -/
structure Outcome (σ : Type) where
  state : σ
  trace : List Event
  result : Option GoError

/-- The method `reconcileScaledObject`.  The builder
`resources.MakeDispatcherScaledObject` lives in another package of the
repository and is taken as an argument. -/
def reconcileScaledObject {σ : Type}
    (MakeDispatcherScaledObject : Context → Trigger → ScaledObject)
    (r : Reconciler σ) (ctx : Context) (trigger : Trigger) (s : σ) : Outcome σ :=
  let so := MakeDispatcherScaledObject ctx trigger
  let got := r.scaledObjectLister.Get s so.Namespace so.Name
  let err := errOf got
  if IsNotFound err then
    let res := r.kedaClientset.Create s so.Namespace so
    let err := errOf res.2
    ⟨res.1, [Event.getScaledObject so.Namespace so.Name (errOf got),
             Event.create so.Namespace so err], err⟩
  else
    match got with
    | .error e => ⟨s, [Event.getScaledObject so.Namespace so.Name (some e)], some e⟩
    | .ok current =>
      if !DeepDerivative so.Spec current.Spec then
        -- Don't modify the informers copy.
        let desired := current.DeepCopy
        let desired := { desired with Spec := so.Spec }
        let res := r.kedaClientset.Update s desired.Namespace desired
        let err := errOf res.2
        ⟨res.1, [Event.getScaledObject so.Namespace so.Name none,
                 Event.update desired.Namespace desired err], err⟩
      else
        ⟨s, [Event.getScaledObject so.Namespace so.Name none], none⟩

/-- The double quote character used in the log formats. -/
def quote : String := String.singleton (Char.ofNat 34)

/-- The method `ReconcileKind`. -/
def ReconcileKind {σ : Type}
    (MakeDispatcherScaledObject : Context → Trigger → ScaledObject)
    (r : Reconciler σ) (ctx : Context) (t : Trigger) (s : σ) : Outcome σ :=
  let logged := Event.log LogLevel.debug "Reconciling" [("Trigger", t)]
  match r.brokerLister.Get s t.ObjectMeta.Namespace t.Spec.Broker with
  | .error err =>
    let got := Event.getBroker t.ObjectMeta.Namespace t.Spec.Broker (some err)
    if IsNotFound (some err) then
      -- Ok to return nil here. Once the Broker comes available, or Trigger changes, we get requeued.
      ⟨s, [logged, got], none⟩
    else
      ⟨s, [logged, got,
           Event.log LogLevel.error
             ("Failed to get Broker: " ++ quote ++ t.Spec.Broker ++ "/" ++
               t.ObjectMeta.Namespace ++ quote ++ " : " ++ err.message) []], none⟩
  | .ok broker =>
    let got := Event.getBroker t.ObjectMeta.Namespace t.Spec.Broker none
    -- If it's not my brokerclass, ignore
    if broker.ObjectMeta.Annotations.index BrokerClassKey != r.brokerClass then
      ⟨s, [logged, got,
           Event.log LogLevel.info
             ("Ignoring trigger " ++ t.ObjectMeta.Namespace ++ "/" ++ t.ObjectMeta.Name) []], none⟩
    else
      let out := reconcileScaledObject MakeDispatcherScaledObject r ctx t s
      ⟨out.state, [logged, got] ++ out.trace, out.result⟩

/-- The method `FinalizeKind`. -/
def FinalizeKind {σ : Type} (_r : Reconciler σ) (_ctx : Context) (_t : Trigger) (s : σ) :
    Outcome σ :=
  -- nil
  ⟨s, [], none⟩

/-! ## Faithful stores -/

/-- A store that keeps what it is given: a successful Create persists the
object passed, a successful Update replaces the persisted object with the one
passed, and the lister reflects the persisted state, each object being filed
under its own namespace and name. -/
structure FaithfulStore {σ : Type} (r : Reconciler σ) : Prop where
  create_persists : ∀ (s s' : σ) (obj ret : ScaledObject),
    r.kedaClientset.Create s obj.Namespace obj = (s', .ok ret) →
    r.scaledObjectLister.Get s' obj.Namespace obj.Name = .ok obj
  update_replaces : ∀ (s s' : σ) (obj ret : ScaledObject),
    r.kedaClientset.Update s obj.Namespace obj = (s', .ok ret) →
    r.scaledObjectLister.Get s' obj.Namespace obj.Name = .ok obj
  lister_keyed : ∀ (s : σ) (ns name : String) (obj : ScaledObject),
    r.scaledObjectLister.Get s ns name = .ok obj → obj.Namespace = ns ∧ obj.Name = name

/-! ## An in-memory cluster, used to run the reconciler on concrete inputs -/

/-- An in-memory cluster: the brokers and the scaled objects it holds. -/
structure Cluster where
  brokers : List Broker
  scaledObjects : List ScaledObject
  deriving DecidableEq, Repr

/-- Errors forced on the calls of the in-memory cluster, in the manner of the
reactors of a fake clientset; `none` lets the call through. -/
structure Faults where
  onGetBroker : Option GoError
  onGetScaledObject : Option GoError
  onCreate : Option GoError
  onUpdate : Option GoError
  deriving DecidableEq, Repr

/-- No forced error. -/
def Faults.none : Faults := ⟨Option.none, Option.none, Option.none, Option.none⟩

/-- The broker filed under `(ns, name)`. -/
def Cluster.findBroker (s : Cluster) (ns name : String) : Option Broker :=
  s.brokers.find? (fun b => b.ObjectMeta.Namespace == ns && b.ObjectMeta.Name == name)

/-- The scaled object filed under `(ns, name)`. -/
def Cluster.findScaledObject (s : Cluster) (ns name : String) : Option ScaledObject :=
  s.scaledObjects.find? (fun o => o.Namespace == ns && o.Name == name)

/-- The not-found error of the in-memory cluster. -/
def notFound (name : String) : GoError := ⟨StatusReasonNotFound, name ++ " not found"⟩

/-- Broker lister of the in-memory cluster. -/
def Cluster.getBroker (f : Faults) (s : Cluster) (ns name : String) : Except GoError Broker :=
  match f.onGetBroker with
  | some e => .error e
  | Option.none =>
    match s.findBroker ns name with
    | some b => .ok b
    | Option.none => .error (notFound name)

/-- Scaled-object lister of the in-memory cluster. -/
def Cluster.getScaledObject (f : Faults) (s : Cluster) (ns name : String) :
    Except GoError ScaledObject :=
  match f.onGetScaledObject with
  | some e => .error e
  | Option.none =>
    match s.findScaledObject ns name with
    | some o => .ok o
    | Option.none => .error (notFound name)

/-- Create on the in-memory cluster: refused when the object names another
namespace than the request or when the identity is taken. -/
def Cluster.create (f : Faults) (s : Cluster) (ns : String) (obj : ScaledObject) :
    Cluster × Except GoError ScaledObject :=
  match f.onCreate with
  | some e => (s, .error e)
  | Option.none =>
    if obj.Namespace != ns then (s, .error ⟨"BadRequest", "namespace mismatch"⟩)
    else if (s.findScaledObject ns obj.Name).isSome then
      (s, .error ⟨"AlreadyExists", obj.Name ++ " already exists"⟩)
    else (⟨s.brokers, obj :: s.scaledObjects⟩, .ok obj)

/-- Update on the in-memory cluster: refused when the object names another
namespace than the request or when nothing is filed under the identity. -/
def Cluster.update (f : Faults) (s : Cluster) (ns : String) (obj : ScaledObject) :
    Cluster × Except GoError ScaledObject :=
  match f.onUpdate with
  | some e => (s, .error e)
  | Option.none =>
    if obj.Namespace != ns then (s, .error ⟨"BadRequest", "namespace mismatch"⟩)
    else if (s.findScaledObject ns obj.Name).isNone then (s, .error (notFound obj.Name))
    else
      (⟨s.brokers,
        obj :: s.scaledObjects.filter (fun o => !(o.Namespace == ns && o.Name == obj.Name))⟩,
       .ok obj)

/-- A reconciler wired to the in-memory cluster. -/
def clusterReconciler (f : Faults) (brokerClass : String) : Reconciler Cluster :=
  ⟨⟨Cluster.create f, Cluster.update f⟩, ⟨Cluster.getBroker f⟩, ⟨Cluster.getScaledObject f⟩,
    brokerClass⟩

/-- Object metadata with only a namespace and a name. -/
def meta0 (ns name : String) : ObjectMeta := ⟨name, ns, "", "", 0, Option.none, Option.none, [], []⟩

/-- A builder used in the examples: the scaled object lives in the namespace
of the trigger, is named after it, and asks for `minReplicas` 1. -/
def sampleBuilder (_ctx : Context) (t : Trigger) : ScaledObject :=
  ⟨meta0 t.ObjectMeta.Namespace (t.ObjectMeta.Name ++ "-scaled-object"),
   ⟨[("minReplicas", FieldValue.int 1)]⟩, ⟨[]⟩⟩

/-- The class handled by the example reconciler. -/
def sampleClass : String := "keda.scaling.knative.dev"

/-- An empty context. -/
def ctx0 : Context := ⟨[]⟩

/-- Trigger `t1` in namespace `ns`, bound to broker `b1`. -/
def t1 : Trigger := ⟨meta0 "ns" "t1", ⟨"b1", Option.none, "sink"⟩⟩

/-- Broker `b1` in namespace `ns`, of the class handled by the example
reconciler. -/
def b1 : Broker :=
  ⟨⟨"b1", "ns", "", "", 0, Option.none, some [(BrokerClassKey, sampleClass)], [], []⟩⟩

/-- Broker `b1` in namespace `ns`, of another class. -/
def b1Other : Broker :=
  ⟨⟨"b1", "ns", "", "", 0, Option.none, some [(BrokerClassKey, "other-class")], [], []⟩⟩

/-- A persisted descriptor for `t1` with the given specification; it carries
a resource version, a label and a status of its own. -/
def persisted (spec : ScaledObjectSpec) : ScaledObject :=
  ⟨⟨"t1-scaled-object", "ns", "uid-7", "42", 3, some [("app", "dispatcher")], Option.none, [], []⟩,
   spec, ⟨[("health", FieldValue.str "ok")]⟩⟩

/-- An error that is not a not-found error. -/
def internalError : GoError := ⟨"InternalError", "etcd unavailable"⟩

/-! ## Theorems -/

section Pass

variable {σ : Type}

/-- C1: when the broker of the trigger is found with the configured class and
the scaled-object lister reports not-found at the identity of
`so = MakeDispatcherScaledObject(trigger)`, `ReconcileKind` issues exactly one
store write, a Create of exactly `so` in `so.Namespace` (hence no Update), and
returns exactly the error of that Create call, nil when the Create succeeds;
the cluster is left in the state produced by the Create. -/
theorem reconcileKind_creates_when_absent
    (mk : Context → Trigger → ScaledObject) (r : Reconciler σ) (ctx : Context) (t : Trigger)
    (s : σ) (b : Broker) (e : GoError)
    (hb : r.brokerLister.Get s t.ObjectMeta.Namespace t.Spec.Broker = .ok b)
    (hc : b.ObjectMeta.Annotations.index BrokerClassKey = r.brokerClass)
    (hget : r.scaledObjectLister.Get s (mk ctx t).Namespace (mk ctx t).Name = .error e)
    (hnf : IsNotFound (some e) = true) :
    writes (ReconcileKind mk r ctx t s).trace
        = [Event.create (mk ctx t).Namespace (mk ctx t)
            (errOf (r.kedaClientset.Create s (mk ctx t).Namespace (mk ctx t)).2)]
      ∧ (ReconcileKind mk r ctx t s).result
        = errOf (r.kedaClientset.Create s (mk ctx t).Namespace (mk ctx t)).2
      ∧ (∀ ret : ScaledObject,
          (r.kedaClientset.Create s (mk ctx t).Namespace (mk ctx t)).2 = .ok ret →
            (ReconcileKind mk r ctx t s).result = none)
      ∧ (ReconcileKind mk r ctx t s).state
        = (r.kedaClientset.Create s (mk ctx t).Namespace (mk ctx t)).1 := by
  have hres : (ReconcileKind mk r ctx t s).result
      = errOf (r.kedaClientset.Create s (mk ctx t).Namespace (mk ctx t)).2 := by
    simp [ReconcileKind, reconcileScaledObject, hb, hc, hget, errOf, hnf]
  refine ⟨?_, hres, ?_, ?_⟩
  · simp [ReconcileKind, reconcileScaledObject, hb, hc, hget, errOf, hnf, writes, Event.isWrite]
  · intro ret hok
    rw [hres, hok]
    rfl
  · simp [ReconcileKind, reconcileScaledObject, hb, hc, hget, errOf, hnf]

/-- C1 on the in-memory cluster: broker `b1` of the configured class, no
descriptor yet. -/
theorem reconcileKind_creates_when_absent_witness :
    writes (ReconcileKind sampleBuilder (clusterReconciler Faults.none sampleClass) ctx0 t1
        ⟨[b1], []⟩).trace
        = [Event.create "ns" (sampleBuilder ctx0 t1) none]
      ∧ (ReconcileKind sampleBuilder (clusterReconciler Faults.none sampleClass) ctx0 t1
          ⟨[b1], []⟩).result = none
      ∧ (ReconcileKind sampleBuilder (clusterReconciler Faults.none sampleClass) ctx0 t1
          ⟨[b1], []⟩).state = ⟨[b1], [sampleBuilder ctx0 t1]⟩ :=
  have h := reconcileKind_creates_when_absent sampleBuilder
    (clusterReconciler Faults.none sampleClass) ctx0 t1 ⟨[b1], []⟩ b1
    (notFound "t1-scaled-object") rfl rfl rfl rfl
  ⟨h.1, h.2.1, h.2.2.2⟩

/-- C2: when the broker matches and the lister returns a descriptor `current`
with `DeepDerivative(so.Spec, current.Spec)` false, `ReconcileKind` issues
exactly one store write, an Update (hence no Create) of an object whose Spec
is `so.Spec` and whose metadata (name, namespace, resource version, labels,
annotations, owner references) and status are those of `current`, and returns
exactly the error of that Update call. -/
theorem reconcileKind_updates_when_diverged
    (mk : Context → Trigger → ScaledObject) (r : Reconciler σ) (ctx : Context) (t : Trigger)
    (s : σ) (b : Broker) (current : ScaledObject)
    (hb : r.brokerLister.Get s t.ObjectMeta.Namespace t.Spec.Broker = .ok b)
    (hc : b.ObjectMeta.Annotations.index BrokerClassKey = r.brokerClass)
    (hget : r.scaledObjectLister.Get s (mk ctx t).Namespace (mk ctx t).Name = .ok current)
    (hdd : DeepDerivative (mk ctx t).Spec current.Spec = false) :
    ∃ desired : ScaledObject,
      desired.Spec = (mk ctx t).Spec
      ∧ desired.ObjectMeta = current.ObjectMeta
      ∧ desired.Status = current.Status
      ∧ writes (ReconcileKind mk r ctx t s).trace
          = [Event.update current.Namespace desired
              (errOf (r.kedaClientset.Update s current.Namespace desired).2)]
      ∧ (ReconcileKind mk r ctx t s).result
          = errOf (r.kedaClientset.Update s current.Namespace desired).2
      ∧ (ReconcileKind mk r ctx t s).state
          = (r.kedaClientset.Update s current.Namespace desired).1 := by
  refine ⟨⟨current.ObjectMeta, (mk ctx t).Spec, current.Status⟩, rfl, rfl, rfl, ?_, ?_, ?_⟩ <;>
    simp [ReconcileKind, reconcileScaledObject, hb, hc, hget, errOf, hdd, IsNotFound, writes,
      Event.isWrite, ScaledObject.DeepCopy]

/-- C2 on the in-memory cluster (scenario E): persisted spec `minReplicas: 0`,
desired spec `minReplicas: 1`. -/
theorem reconcileKind_updates_when_diverged_witness :
    ∃ desired : ScaledObject,
      desired.Spec = ⟨[("minReplicas", FieldValue.int 1)]⟩
      ∧ desired.ObjectMeta = (persisted ⟨[("minReplicas", FieldValue.int 0)]⟩).ObjectMeta
      ∧ desired.Status = (persisted ⟨[("minReplicas", FieldValue.int 0)]⟩).Status
      ∧ writes (ReconcileKind sampleBuilder (clusterReconciler Faults.none sampleClass) ctx0 t1
          ⟨[b1], [persisted ⟨[("minReplicas", FieldValue.int 0)]⟩]⟩).trace
          = [Event.update "ns" desired none]
      ∧ (ReconcileKind sampleBuilder (clusterReconciler Faults.none sampleClass) ctx0 t1
          ⟨[b1], [persisted ⟨[("minReplicas", FieldValue.int 0)]⟩]⟩).result = none :=
  have ⟨d, h1, h2, h3, h4, h5, _⟩ := reconcileKind_updates_when_diverged sampleBuilder
    (clusterReconciler Faults.none sampleClass) ctx0 t1
    ⟨[b1], [persisted ⟨[("minReplicas", FieldValue.int 0)]⟩]⟩ b1
    (persisted ⟨[("minReplicas", FieldValue.int 0)]⟩) rfl rfl rfl rfl
  have hd : d = persisted ⟨[("minReplicas", FieldValue.int 1)]⟩ := by
    cases d
    simp only [persisted] at h2 h3 ⊢
    simp only at h1
    subst h1 h2 h3
    rfl
  ⟨d, h1, h2, h3, by rw [h4, hd]; rfl, by rw [h5, hd]; rfl⟩

/-- C3: when the broker matches and the lister returns a descriptor `current`
with `DeepDerivative(so.Spec, current.Spec)` true, `ReconcileKind` issues no
Create and no Update, returns nil and leaves the cluster as it was.  Nothing
is asked of the fields of `current.Spec` that `so.Spec` leaves unset, so
`current.Spec` need not equal `so.Spec`. -/
theorem reconcileKind_noop_when_derivative
    (mk : Context → Trigger → ScaledObject) (r : Reconciler σ) (ctx : Context) (t : Trigger)
    (s : σ) (b : Broker) (current : ScaledObject)
    (hb : r.brokerLister.Get s t.ObjectMeta.Namespace t.Spec.Broker = .ok b)
    (hc : b.ObjectMeta.Annotations.index BrokerClassKey = r.brokerClass)
    (hget : r.scaledObjectLister.Get s (mk ctx t).Namespace (mk ctx t).Name = .ok current)
    (hdd : DeepDerivative (mk ctx t).Spec current.Spec = true) :
    writes (ReconcileKind mk r ctx t s).trace = []
      ∧ (ReconcileKind mk r ctx t s).result = none
      ∧ (ReconcileKind mk r ctx t s).state = s := by
  refine ⟨?_, ?_, ?_⟩ <;>
    simp [ReconcileKind, reconcileScaledObject, hb, hc, hget, errOf, hdd, IsNotFound, writes,
      Event.isWrite]

/-- C3 on the in-memory cluster: the persisted spec carries `maxReplicas`,
which the desired spec leaves unset; the two specs differ, the comparison
holds, and nothing is written. -/
theorem reconcileKind_noop_when_derivative_witness :
    (persisted ⟨[("maxReplicas", FieldValue.int 5), ("minReplicas", FieldValue.int 1)]⟩).Spec
        ≠ (sampleBuilder ctx0 t1).Spec
      ∧ DeepDerivative (sampleBuilder ctx0 t1).Spec
          (persisted ⟨[("maxReplicas", FieldValue.int 5), ("minReplicas", FieldValue.int 1)]⟩).Spec
          = true
      ∧ writes (ReconcileKind sampleBuilder (clusterReconciler Faults.none sampleClass) ctx0 t1
          ⟨[b1], [persisted ⟨[("maxReplicas", FieldValue.int 5),
            ("minReplicas", FieldValue.int 1)]⟩]⟩).trace = []
      ∧ (ReconcileKind sampleBuilder (clusterReconciler Faults.none sampleClass) ctx0 t1
          ⟨[b1], [persisted ⟨[("maxReplicas", FieldValue.int 5),
            ("minReplicas", FieldValue.int 1)]⟩]⟩).result = none :=
  have h := reconcileKind_noop_when_derivative sampleBuilder
    (clusterReconciler Faults.none sampleClass) ctx0 t1
    ⟨[b1], [persisted ⟨[("maxReplicas", FieldValue.int 5), ("minReplicas", FieldValue.int 1)]⟩]⟩
    b1 (persisted ⟨[("maxReplicas", FieldValue.int 5), ("minReplicas", FieldValue.int 1)]⟩)
    rfl rfl rfl rfl
  ⟨by decide, rfl, h.1, h.2.1⟩

/-- C4: when the broker named by the trigger is not found, `ReconcileKind`
returns nil, never consults the scaled-object lister (the pass consists of the
debug line and the broker lookup, so `reconcileScaledObject` is not run),
issues no Create and no Update, and leaves the cluster as it was, whatever the
scaled-object store holds. -/
theorem reconcileKind_skips_missing_broker
    (mk : Context → Trigger → ScaledObject) (r : Reconciler σ) (ctx : Context) (t : Trigger)
    (s : σ) (e : GoError)
    (hb : r.brokerLister.Get s t.ObjectMeta.Namespace t.Spec.Broker = .error e)
    (hnf : IsNotFound (some e) = true) :
    (ReconcileKind mk r ctx t s).result = none
      ∧ (ReconcileKind mk r ctx t s).trace
          = [Event.log LogLevel.debug "Reconciling" [("Trigger", t)],
             Event.getBroker t.ObjectMeta.Namespace t.Spec.Broker (some e)]
      ∧ (ReconcileKind mk r ctx t s).trace.filter Event.isScaledObjectRead = []
      ∧ writes (ReconcileKind mk r ctx t s).trace = []
      ∧ (ReconcileKind mk r ctx t s).state = s := by
  refine ⟨?_, ?_, ?_, ?_, ?_⟩ <;>
    simp [ReconcileKind, hb, hnf, writes, Event.isWrite, Event.isScaledObjectRead]

/-- C4 on the in-memory cluster (scenario A): broker `b1` is not present,
while a descriptor for `t1` is. -/
theorem reconcileKind_skips_missing_broker_witness :
    (ReconcileKind sampleBuilder (clusterReconciler Faults.none sampleClass) ctx0 t1
        ⟨[], [persisted ⟨[]⟩]⟩).result = none
      ∧ (ReconcileKind sampleBuilder (clusterReconciler Faults.none sampleClass) ctx0 t1
        ⟨[], [persisted ⟨[]⟩]⟩).trace.filter Event.isScaledObjectRead = []
      ∧ writes (ReconcileKind sampleBuilder (clusterReconciler Faults.none sampleClass) ctx0 t1
        ⟨[], [persisted ⟨[]⟩]⟩).trace = [] :=
  have h := reconcileKind_skips_missing_broker sampleBuilder
    (clusterReconciler Faults.none sampleClass) ctx0 t1 ⟨[], [persisted ⟨[]⟩]⟩
    (notFound "b1") rfl rfl
  ⟨h.1, h.2.2.1, h.2.2.2.1⟩

/-- C5: when the broker lookup succeeds, a class annotation value (the empty
string when the annotation or the whole annotations map is absent) different
from the configured `brokerClass` makes `ReconcileKind` return nil with no
Create and no Update; a value equal to `brokerClass` makes the result of
`ReconcileKind` exactly the result of `reconcileScaledObject` on that trigger
(same returned error, same final state, same calls after the broker lookup). -/
theorem reconcileKind_class_gate
    (mk : Context → Trigger → ScaledObject) (r : Reconciler σ) (ctx : Context) (t : Trigger)
    (s : σ) (b : Broker)
    (hb : r.brokerLister.Get s t.ObjectMeta.Namespace t.Spec.Broker = .ok b) :
    (b.ObjectMeta.Annotations.index BrokerClassKey ≠ r.brokerClass →
        (ReconcileKind mk r ctx t s).result = none
          ∧ writes (ReconcileKind mk r ctx t s).trace = []
          ∧ (ReconcileKind mk r ctx t s).state = s)
      ∧ (b.ObjectMeta.Annotations.index BrokerClassKey = r.brokerClass →
        (ReconcileKind mk r ctx t s).result = (reconcileScaledObject mk r ctx t s).result
          ∧ (ReconcileKind mk r ctx t s).state = (reconcileScaledObject mk r ctx t s).state
          ∧ (ReconcileKind mk r ctx t s).trace
              = [Event.log LogLevel.debug "Reconciling" [("Trigger", t)],
                 Event.getBroker t.ObjectMeta.Namespace t.Spec.Broker none]
                ++ (reconcileScaledObject mk r ctx t s).trace) := by
  constructor
  · intro hne
    refine ⟨?_, ?_, ?_⟩ <;> simp [ReconcileKind, hb, hne, writes, Event.isWrite]
  · intro heq
    refine ⟨?_, ?_, ?_⟩ <;> simp [ReconcileKind, hb, heq]

/-- C5 on the in-memory cluster (scenario B): a broker of class `other-class`,
a broker without annotations, and a broker of the configured class. -/
theorem reconcileKind_class_gate_witness :
    ((ReconcileKind sampleBuilder (clusterReconciler Faults.none sampleClass) ctx0 t1
        ⟨[b1Other], []⟩).result = none
      ∧ writes (ReconcileKind sampleBuilder (clusterReconciler Faults.none sampleClass) ctx0 t1
        ⟨[b1Other], []⟩).trace = [])
    ∧ ((ReconcileKind sampleBuilder (clusterReconciler Faults.none sampleClass) ctx0 t1
        ⟨[⟨meta0 "ns" "b1"⟩], []⟩).result = none
      ∧ writes (ReconcileKind sampleBuilder (clusterReconciler Faults.none sampleClass) ctx0 t1
        ⟨[⟨meta0 "ns" "b1"⟩], []⟩).trace = [])
    ∧ (ReconcileKind sampleBuilder (clusterReconciler Faults.none sampleClass) ctx0 t1
        ⟨[b1], []⟩).state
        = (reconcileScaledObject sampleBuilder (clusterReconciler Faults.none sampleClass) ctx0 t1
            ⟨[b1], []⟩).state :=
  have h1 := (reconcileKind_class_gate sampleBuilder (clusterReconciler Faults.none sampleClass)
    ctx0 t1 ⟨[b1Other], []⟩ b1Other rfl).1 (by decide)
  have h2 := (reconcileKind_class_gate sampleBuilder (clusterReconciler Faults.none sampleClass)
    ctx0 t1 ⟨[⟨meta0 "ns" "b1"⟩], []⟩ ⟨meta0 "ns" "b1"⟩ rfl).1 (by decide)
  have h3 := (reconcileKind_class_gate sampleBuilder (clusterReconciler Faults.none sampleClass)
    ctx0 t1 ⟨[b1], []⟩ b1 rfl).2 rfl
  ⟨⟨h1.1, h1.2.1⟩, ⟨h2.1, h2.2.1⟩, h3.2.1⟩

/-- C7: when the broker lookup fails with an error that is not a not-found
error, `ReconcileKind` returns nil (the error is logged, not propagated),
issues no Create and no Update, and leaves the cluster as it was. -/
theorem reconcileKind_swallows_broker_error
    (mk : Context → Trigger → ScaledObject) (r : Reconciler σ) (ctx : Context) (t : Trigger)
    (s : σ) (e : GoError)
    (hb : r.brokerLister.Get s t.ObjectMeta.Namespace t.Spec.Broker = .error e)
    (hnf : IsNotFound (some e) = false) :
    (ReconcileKind mk r ctx t s).result = none
      ∧ writes (ReconcileKind mk r ctx t s).trace = []
      ∧ (ReconcileKind mk r ctx t s).trace.filter Event.isScaledObjectRead = []
      ∧ (ReconcileKind mk r ctx t s).state = s := by
  refine ⟨?_, ?_, ?_, ?_⟩ <;>
    simp [ReconcileKind, hb, hnf, writes, Event.isWrite, Event.isScaledObjectRead]

/-- C7 on the in-memory cluster: the broker lister fails with an internal
error. -/
theorem reconcileKind_swallows_broker_error_witness :
    (ReconcileKind sampleBuilder
        (clusterReconciler ⟨some internalError, none, none, none⟩ sampleClass) ctx0 t1
        ⟨[b1], []⟩).result = none
      ∧ writes (ReconcileKind sampleBuilder
        (clusterReconciler ⟨some internalError, none, none, none⟩ sampleClass) ctx0 t1
        ⟨[b1], []⟩).trace = [] :=
  have h := reconcileKind_swallows_broker_error sampleBuilder
    (clusterReconciler ⟨some internalError, none, none, none⟩ sampleClass) ctx0 t1 ⟨[b1], []⟩
    internalError rfl rfl
  ⟨h.1, h.2.1⟩

/-- C8: when the broker matches and the Get of the scaled-object lister fails
with an error `e` that is not a not-found error, `reconcileScaledObject`, and
hence `ReconcileKind`, returns exactly `e`, issues no Create and no Update, and
leaves the cluster as it was. -/
theorem reconcileKind_propagates_lister_error
    (mk : Context → Trigger → ScaledObject) (r : Reconciler σ) (ctx : Context) (t : Trigger)
    (s : σ) (b : Broker) (e : GoError)
    (hb : r.brokerLister.Get s t.ObjectMeta.Namespace t.Spec.Broker = .ok b)
    (hc : b.ObjectMeta.Annotations.index BrokerClassKey = r.brokerClass)
    (hget : r.scaledObjectLister.Get s (mk ctx t).Namespace (mk ctx t).Name = .error e)
    (hnf : IsNotFound (some e) = false) :
    (reconcileScaledObject mk r ctx t s).result = some e
      ∧ writes (reconcileScaledObject mk r ctx t s).trace = []
      ∧ (ReconcileKind mk r ctx t s).result = some e
      ∧ writes (ReconcileKind mk r ctx t s).trace = []
      ∧ (ReconcileKind mk r ctx t s).state = s := by
  refine ⟨?_, ?_, ?_, ?_, ?_⟩ <;>
    simp [ReconcileKind, reconcileScaledObject, hb, hc, hget, errOf, hnf, writes, Event.isWrite]

/-- C8 on the in-memory cluster: the scaled-object lister fails with an
internal error. -/
theorem reconcileKind_propagates_lister_error_witness :
    (ReconcileKind sampleBuilder
        (clusterReconciler ⟨none, some internalError, none, none⟩ sampleClass) ctx0 t1
        ⟨[b1], []⟩).result = some internalError
      ∧ writes (ReconcileKind sampleBuilder
        (clusterReconciler ⟨none, some internalError, none, none⟩ sampleClass) ctx0 t1
        ⟨[b1], []⟩).trace = [] :=
  have h := reconcileKind_propagates_lister_error sampleBuilder
    (clusterReconciler ⟨none, some internalError, none, none⟩ sampleClass) ctx0 t1 ⟨[b1], []⟩
    b1 internalError rfl rfl rfl rfl
  ⟨h.2.2.1, h.2.2.2.1⟩

/-- C10: for every trigger and every reconciler state, `FinalizeKind` returns
nil and does nothing: it makes no call at all (no lister read, no Create, no
Update, no Delete) and the cluster, brokers and scaled objects alike, is left
as it was. -/
theorem finalizeKind_is_noop (r : Reconciler σ) (ctx : Context) (t : Trigger) (s : σ) :
    (FinalizeKind r ctx t s).result = none
      ∧ (FinalizeKind r ctx t s).trace = []
      ∧ (FinalizeKind r ctx t s).state = s :=
  ⟨rfl, rfl, rfl⟩

/-- C6, refuted as stated: it is not true that every failed store call other
than a not-found on a read has its error returned by `ReconcileKind`.  On the
in-memory cluster whose broker lister fails with an internal error, the broker
lookup is a read that fails with an error that is not not-found, and
`ReconcileKind` returns nil. -/
theorem reconcileKind_not_every_failure_propagated :
    ¬ (∀ (mk : Context → Trigger → ScaledObject) (r : Reconciler Cluster) (ctx : Context)
        (t : Trigger) (s : Cluster) (ev : Event) (e : GoError),
        ev ∈ (ReconcileKind mk r ctx t s).trace →
        (ev.isRead = true ∨ ev.isWrite = true) →
        ev.err = some e →
        ¬ (ev.isRead = true ∧ IsNotFound (some e) = true) →
        (ReconcileKind mk r ctx t s).result = some e) := by
  intro h
  have h1 := h sampleBuilder (clusterReconciler ⟨some internalError, none, none, none⟩ sampleClass)
    ctx0 t1 ⟨[b1], []⟩ (Event.getBroker "ns" "b1" (some internalError)) internalError
    (by decide) (by decide) rfl (by decide)
  exact absurd h1 (by decide)

/-- C6, amended: whenever a call on the scaled-object store made during
`ReconcileKind` (descriptor get, descriptor create, descriptor update) fails
with an error other than a not-found on the read, `ReconcileKind` returns that
same error unmodified; a failed broker get, of whatever kind, is not
propagated: `ReconcileKind` then returns nil; and a not-found on the
descriptor get is recovered locally by a Create: the pass then issues exactly
one store write, the Create of `so = MakeDispatcherScaledObject(trigger)` in
`so.Namespace`, returns the error of that Create and leaves the cluster in the
state the Create produced. -/
theorem reconcileKind_propagates_descriptor_failures
    (mk : Context → Trigger → ScaledObject) (r : Reconciler σ) (ctx : Context) (t : Trigger)
    (s : σ) (ev : Event) (e : GoError)
    (hev : ev ∈ (ReconcileKind mk r ctx t s).trace)
    (herr : ev.err = some e) :
    (ev.isBrokerRead = true → (ReconcileKind mk r ctx t s).result = none)
      ∧ (ev.isBrokerRead = false →
          ¬ (ev.isRead = true ∧ IsNotFound (some e) = true) →
          (ReconcileKind mk r ctx t s).result = some e)
      ∧ (ev.isScaledObjectRead = true → IsNotFound (some e) = true →
          writes (ReconcileKind mk r ctx t s).trace
              = [Event.create (mk ctx t).Namespace (mk ctx t)
                  (errOf (r.kedaClientset.Create s (mk ctx t).Namespace (mk ctx t)).2)]
            ∧ (ReconcileKind mk r ctx t s).result
              = errOf (r.kedaClientset.Create s (mk ctx t).Namespace (mk ctx t)).2
            ∧ (ReconcileKind mk r ctx t s).state
              = (r.kedaClientset.Create s (mk ctx t).Namespace (mk ctx t)).1) := by
  have hpropagate :
      (ev.isBrokerRead = true → (ReconcileKind mk r ctx t s).result = none)
        ∧ (ev.isBrokerRead = false →
            ¬ (ev.isRead = true ∧ IsNotFound (some e) = true) →
            (ReconcileKind mk r ctx t s).result = some e) := by
    cases hb : r.brokerLister.Get s t.ObjectMeta.Namespace t.Spec.Broker with
    | error err =>
      cases hnf : IsNotFound (some err) with
      | true =>
        simp [ReconcileKind, hb, hnf] at hev ⊢
        rcases hev with rfl | rfl <;> simp_all [Event.err, Event.isBrokerRead]
      | false =>
        simp [ReconcileKind, hb, hnf] at hev ⊢
        rcases hev with rfl | rfl | rfl <;> simp_all [Event.err, Event.isBrokerRead]
    | ok b =>
      by_cases hc : b.ObjectMeta.Annotations.index BrokerClassKey = r.brokerClass
      · cases hget : r.scaledObjectLister.Get s (mk ctx t).Namespace (mk ctx t).Name with
        | error e' =>
          cases hnf : IsNotFound (some e') with
          | true =>
            simp [ReconcileKind, reconcileScaledObject, hb, hc, hget, errOf, hnf] at hev ⊢
            rcases hev with rfl | rfl | rfl | rfl <;>
              simp_all [Event.err, Event.isBrokerRead, Event.isRead]
          | false =>
            simp [ReconcileKind, reconcileScaledObject, hb, hc, hget, errOf, hnf] at hev ⊢
            rcases hev with rfl | rfl | rfl <;>
              simp_all [Event.err, Event.isBrokerRead, Event.isRead]
        | ok current =>
          cases hdd : DeepDerivative (mk ctx t).Spec current.Spec with
          | true =>
            simp [ReconcileKind, reconcileScaledObject, hb, hc, hget, errOf, hdd, IsNotFound]
              at hev ⊢
            rcases hev with rfl | rfl | rfl <;>
              simp_all [Event.err, Event.isBrokerRead, Event.isRead]
          | false =>
            simp [ReconcileKind, reconcileScaledObject, hb, hc, hget, errOf, hdd, IsNotFound]
              at hev ⊢
            rcases hev with rfl | rfl | rfl | rfl <;>
              simp_all [Event.err, Event.isBrokerRead, Event.isRead]
      · simp [ReconcileKind, hb, hc] at hev ⊢
        rcases hev with rfl | rfl | rfl <;> simp_all [Event.err, Event.isBrokerRead]
  refine ⟨hpropagate.1, hpropagate.2, ?_⟩
  intro hread hnotfound
  cases hb : r.brokerLister.Get s t.ObjectMeta.Namespace t.Spec.Broker with
  | error err =>
    cases hnf : IsNotFound (some err) with
    | true =>
      simp [ReconcileKind, hb, hnf] at hev
      rcases hev with rfl | rfl <;> simp [Event.isScaledObjectRead] at hread
    | false =>
      simp [ReconcileKind, hb, hnf] at hev
      rcases hev with rfl | rfl | rfl <;> simp [Event.isScaledObjectRead] at hread
  | ok b =>
    by_cases hc : b.ObjectMeta.Annotations.index BrokerClassKey = r.brokerClass
    · cases hget : r.scaledObjectLister.Get s (mk ctx t).Namespace (mk ctx t).Name with
      | error e' =>
        cases hnf : IsNotFound (some e') with
        | true =>
          refine ⟨?_, ?_, ?_⟩ <;>
            simp [ReconcileKind, reconcileScaledObject, hb, hc, hget, errOf, hnf, writes,
              Event.isWrite]
        | false =>
          simp [ReconcileKind, reconcileScaledObject, hb, hc, hget, errOf, hnf] at hev
          rcases hev with rfl | rfl | rfl
          · simp [Event.isScaledObjectRead] at hread
          · simp [Event.isScaledObjectRead] at hread
          · simp only [Event.err, Option.some.injEq] at herr
            subst herr
            rw [hnf] at hnotfound
            exact absurd hnotfound (by decide)
      | ok current =>
        cases hdd : DeepDerivative (mk ctx t).Spec current.Spec with
        | true =>
          simp [ReconcileKind, reconcileScaledObject, hb, hc, hget, errOf, hdd, IsNotFound]
            at hev
          rcases hev with rfl | rfl | rfl
          · simp [Event.isScaledObjectRead] at hread
          · simp [Event.isScaledObjectRead] at hread
          · simp [Event.err] at herr
        | false =>
          simp [ReconcileKind, reconcileScaledObject, hb, hc, hget, errOf, hdd, IsNotFound]
            at hev
          rcases hev with rfl | rfl | rfl | rfl
          · simp [Event.isScaledObjectRead] at hread
          · simp [Event.isScaledObjectRead] at hread
          · simp [Event.err] at herr
          · simp [Event.isScaledObjectRead] at hread
    · simp [ReconcileKind, hb, hc] at hev
      rcases hev with rfl | rfl | rfl <;> simp [Event.isScaledObjectRead] at hread

/-- C6 amended, on the in-memory cluster: a Create that fails with an internal
error has that error returned by `ReconcileKind`; and a not-found on the
descriptor get is answered by exactly one Create of the built object, whose
result (nil here) is returned. -/
theorem reconcileKind_propagates_descriptor_failures_witness :
    (ReconcileKind sampleBuilder
        (clusterReconciler ⟨none, none, some internalError, none⟩ sampleClass) ctx0 t1
        ⟨[b1], []⟩).result = some internalError
      ∧ writes (ReconcileKind sampleBuilder (clusterReconciler Faults.none sampleClass) ctx0 t1
          ⟨[b1], []⟩).trace = [Event.create "ns" (sampleBuilder ctx0 t1) none]
      ∧ (ReconcileKind sampleBuilder (clusterReconciler Faults.none sampleClass) ctx0 t1
          ⟨[b1], []⟩).result = none :=
  have h1 := (reconcileKind_propagates_descriptor_failures sampleBuilder
    (clusterReconciler ⟨none, none, some internalError, none⟩ sampleClass) ctx0 t1 ⟨[b1], []⟩
    (Event.create "ns" (sampleBuilder ctx0 t1) (some internalError)) internalError
    (by decide) rfl).2.1 rfl (by decide)
  have h2 := (reconcileKind_propagates_descriptor_failures sampleBuilder
    (clusterReconciler Faults.none sampleClass) ctx0 t1 ⟨[b1], []⟩
    (Event.getScaledObject "ns" "t1-scaled-object" (some (notFound "t1-scaled-object")))
    (notFound "t1-scaled-object") (by decide) rfl).2.2 rfl rfl
  ⟨h1, h2.1, h2.2.1⟩

/-- Every specification is a derivative of itself. -/
theorem deepDerivative_self (a : ScaledObjectSpec) : DeepDerivative a a = true := by
  simp [DeepDerivative]

/-- The in-memory cluster without forced errors is a faithful store. -/
theorem clusterReconciler_faithful (brokerClass : String) :
    FaithfulStore (clusterReconciler Faults.none brokerClass) := by
  refine ⟨?_, ?_, ?_⟩
  · intro s s' obj ret h
    simp only [clusterReconciler, Cluster.create, Faults.none, bne_self_eq_false,
      Bool.false_eq_true, if_false] at h
    by_cases hex : (s.findScaledObject obj.Namespace obj.Name).isSome = true
    · simp [hex] at h
    · simp only [hex, if_false, Prod.mk.injEq] at h
      obtain ⟨rfl, -⟩ := h
      simp [clusterReconciler, Cluster.getScaledObject, Faults.none, Cluster.findScaledObject]
  · intro s s' obj ret h
    simp only [clusterReconciler, Cluster.update, Faults.none, bne_self_eq_false,
      Bool.false_eq_true, if_false] at h
    by_cases hex : (s.findScaledObject obj.Namespace obj.Name).isNone = true
    · simp [hex] at h
    · simp only [hex, if_false, Prod.mk.injEq] at h
      obtain ⟨rfl, -⟩ := h
      simp [clusterReconciler, Cluster.getScaledObject, Faults.none, Cluster.findScaledObject]
  · intro s ns name obj h
    simp only [clusterReconciler, Cluster.getScaledObject, Faults.none,
      Cluster.findScaledObject] at h
    cases hf : s.scaledObjects.find? (fun o => o.Namespace == ns && o.Name == name) with
    | none => simp [hf] at h
    | some o =>
      simp only [hf, Except.ok.injEq] at h
      subst h
      have := List.find?_some hf
      simpa using this

/-- C9: a second pass is a no-op.  Take a trigger whose broker matches the
configured class, before and after the first pass, and a faithful store.  If
the first `ReconcileKind` pass returns nil, then after it the lister holds at
the identity of `so = MakeDispatcherScaledObject(trigger)` a descriptor
`persisted` with `DeepDerivative(so.Spec, persisted.Spec)`, and a second
`ReconcileKind` pass on the same trigger issues no Create and no Update,
returns nil and leaves the cluster as the first pass left it. -/
theorem reconcileKind_second_pass_noop
    (mk : Context → Trigger → ScaledObject) (r : Reconciler σ) (ctx : Context) (t : Trigger)
    (s : σ) (b b' : Broker)
    (hf : FaithfulStore r)
    (hb : r.brokerLister.Get s t.ObjectMeta.Namespace t.Spec.Broker = .ok b)
    (hc : b.ObjectMeta.Annotations.index BrokerClassKey = r.brokerClass)
    (hnil : (ReconcileKind mk r ctx t s).result = none)
    (hb' : r.brokerLister.Get (ReconcileKind mk r ctx t s).state
      t.ObjectMeta.Namespace t.Spec.Broker = .ok b')
    (hc' : b'.ObjectMeta.Annotations.index BrokerClassKey = r.brokerClass) :
    (∃ persisted : ScaledObject,
        r.scaledObjectLister.Get (ReconcileKind mk r ctx t s).state
            (mk ctx t).Namespace (mk ctx t).Name = .ok persisted
          ∧ DeepDerivative (mk ctx t).Spec persisted.Spec = true)
      ∧ writes (ReconcileKind mk r ctx t (ReconcileKind mk r ctx t s).state).trace = []
      ∧ (ReconcileKind mk r ctx t (ReconcileKind mk r ctx t s).state).result = none
      ∧ (ReconcileKind mk r ctx t (ReconcileKind mk r ctx t s).state).state
          = (ReconcileKind mk r ctx t s).state := by
  have key : ∃ persisted : ScaledObject,
      r.scaledObjectLister.Get (ReconcileKind mk r ctx t s).state
          (mk ctx t).Namespace (mk ctx t).Name = .ok persisted
        ∧ DeepDerivative (mk ctx t).Spec persisted.Spec = true := by
    cases hget : r.scaledObjectLister.Get s (mk ctx t).Namespace (mk ctx t).Name with
    | error e =>
      cases hnf : IsNotFound (some e) with
      | false =>
        simp [ReconcileKind, reconcileScaledObject, hb, hc, hget, errOf, hnf] at hnil
      | true =>
        cases hcr : r.kedaClientset.Create s (mk ctx t).Namespace (mk ctx t) with
        | mk s1 res =>
          cases res with
          | error e1 =>
            simp [ReconcileKind, reconcileScaledObject, hb, hc, hget, errOf, hnf, hcr] at hnil
          | ok ret =>
            refine ⟨mk ctx t, ?_, deepDerivative_self _⟩
            have hp := hf.create_persists s s1 (mk ctx t) ret hcr
            simpa [ReconcileKind, reconcileScaledObject, hb, hc, hget, errOf, hnf, hcr] using hp
    | ok current =>
      have hk := hf.lister_keyed s _ _ current hget
      cases hdd : DeepDerivative (mk ctx t).Spec current.Spec with
      | true =>
        refine ⟨current, ?_, hdd⟩
        simp [ReconcileKind, reconcileScaledObject, hb, hc, hget, errOf, hdd, IsNotFound]
      | false =>
        cases hup : r.kedaClientset.Update s current.Namespace
            ⟨current.ObjectMeta, (mk ctx t).Spec, current.Status⟩ with
        | mk s1 res =>
          cases res with
          | error e1 =>
            simp [ReconcileKind, reconcileScaledObject, hb, hc, hget, errOf, hdd, IsNotFound,
              ScaledObject.DeepCopy, hup] at hnil
          | ok ret =>
            refine ⟨⟨current.ObjectMeta, (mk ctx t).Spec, current.Status⟩, ?_,
              deepDerivative_self _⟩
            have hp := hf.update_replaces s s1
              ⟨current.ObjectMeta, (mk ctx t).Spec, current.Status⟩ ret hup
            simp only [ScaledObject.Namespace, ScaledObject.Name] at hp hk ⊢
            rw [hk.1, hk.2] at hp
            simpa [ReconcileKind, reconcileScaledObject, hb, hc, hget, errOf, hdd, IsNotFound,
              ScaledObject.DeepCopy, hup] using hp
  obtain ⟨persisted, hget2, hdd2⟩ := key
  refine ⟨⟨persisted, hget2, hdd2⟩, ?_, ?_, ?_⟩
  · generalize (ReconcileKind mk r ctx t s).state = s1 at hb' hget2
    simp [ReconcileKind, reconcileScaledObject, hb', hc', hget2, errOf, hdd2, IsNotFound, writes,
      Event.isWrite]
  · generalize (ReconcileKind mk r ctx t s).state = s1 at hb' hget2
    simp [ReconcileKind, reconcileScaledObject, hb', hc', hget2, errOf, hdd2, IsNotFound]
  · generalize (ReconcileKind mk r ctx t s).state = s1 at hb' hget2
    simp [ReconcileKind, reconcileScaledObject, hb', hc', hget2, errOf, hdd2, IsNotFound]

/-- C9 on the in-memory cluster: starting without a descriptor, the first
pass creates it and the second pass writes nothing; starting from a diverged
descriptor, the first pass updates it and the second pass writes nothing. -/
theorem reconcileKind_second_pass_noop_witness :
    (writes (ReconcileKind sampleBuilder (clusterReconciler Faults.none sampleClass) ctx0 t1
        ⟨[b1], []⟩).trace ≠ []
      ∧ writes (ReconcileKind sampleBuilder (clusterReconciler Faults.none sampleClass) ctx0 t1
        (ReconcileKind sampleBuilder (clusterReconciler Faults.none sampleClass) ctx0 t1
          ⟨[b1], []⟩).state).trace = []
      ∧ (ReconcileKind sampleBuilder (clusterReconciler Faults.none sampleClass) ctx0 t1
        (ReconcileKind sampleBuilder (clusterReconciler Faults.none sampleClass) ctx0 t1
          ⟨[b1], []⟩).state).result = none)
    ∧ (writes (ReconcileKind sampleBuilder (clusterReconciler Faults.none sampleClass) ctx0 t1
        ⟨[b1], [persisted ⟨[("minReplicas", FieldValue.int 0)]⟩]⟩).trace ≠ []
      ∧ writes (ReconcileKind sampleBuilder (clusterReconciler Faults.none sampleClass) ctx0 t1
        (ReconcileKind sampleBuilder (clusterReconciler Faults.none sampleClass) ctx0 t1
          ⟨[b1], [persisted ⟨[("minReplicas", FieldValue.int 0)]⟩]⟩).state).trace = []
      ∧ (ReconcileKind sampleBuilder (clusterReconciler Faults.none sampleClass) ctx0 t1
        (ReconcileKind sampleBuilder (clusterReconciler Faults.none sampleClass) ctx0 t1
          ⟨[b1], [persisted ⟨[("minReplicas", FieldValue.int 0)]⟩]⟩).state).result = none) :=
  have h1 := reconcileKind_second_pass_noop sampleBuilder
    (clusterReconciler Faults.none sampleClass) ctx0 t1 ⟨[b1], []⟩ b1 b1
    (clusterReconciler_faithful sampleClass) rfl rfl rfl rfl rfl
  have h2 := reconcileKind_second_pass_noop sampleBuilder
    (clusterReconciler Faults.none sampleClass) ctx0 t1
    ⟨[b1], [persisted ⟨[("minReplicas", FieldValue.int 0)]⟩]⟩ b1 b1
    (clusterReconciler_faithful sampleClass) rfl rfl rfl rfl rfl
  ⟨⟨by decide, h1.2.1, h1.2.2.1⟩, ⟨by decide, h2.2.1, h2.2.2.1⟩⟩

end Pass

end TriggerReconciler
